import Mathlib

/-!
# Verification of deployd (gograz/deployd)

A shallow embedding of the deployd daemon's core logic in Lean 4, together
with theorems settling the specification's claims about it.

Bytes are modelled as `Nat` values below 256, byte strings as `List Nat`,
and Go strings as Lean `String` (converted to UTF-8 bytes where the Go code
does `[]byte(s)`).  Machine 32-bit arithmetic is `Nat` reduced modulo `2^32`.
-/

namespace Deployd

/-! ## UTF-8 encoding (Go's `[]byte(s)` conversion) -/

/-- UTF-8 encoding of a single code point, as Go produces for `[]byte(s)`. -/
def utf8Bytes (c : Nat) : List Nat :=
  if c < 0x80 then [c]
  else if c < 0x800 then
    [0xC0 ||| (c >>> 6), 0x80 ||| (c &&& 0x3F)]
  else if c < 0x10000 then
    [0xE0 ||| (c >>> 12), 0x80 ||| ((c >>> 6) &&& 0x3F), 0x80 ||| (c &&& 0x3F)]
  else
    [0xF0 ||| (c >>> 18), 0x80 ||| ((c >>> 12) &&& 0x3F),
     0x80 ||| ((c >>> 6) &&& 0x3F), 0x80 ||| (c &&& 0x3F)]

/-- The byte sequence of a Go string: UTF-8 encoding of its code points. -/
def strBytes (s : String) : List Nat :=
  (s.toList.map (fun c => utf8Bytes c.toNat)).flatten

/-! ## Lowercase hex formatting (Go's `fmt.Sprintf("%x", bytes)`) -/

/-- One lowercase hexadecimal digit. -/
def hexDigit (n : Nat) : Char :=
  if n < 10 then Char.ofNat (48 + n) else Char.ofNat (87 + n)

/-- Two lowercase hex digits of one byte. -/
def byteHex (b : Nat) : List Char :=
  [hexDigit (b / 16 % 16), hexDigit (b % 16)]

/-- Lowercase hex rendering of a byte string, as Go's `%x` verb produces. -/
def hexLower (bs : List Nat) : String :=
  ⟨(bs.map byteHex).flatten⟩

/-! ## SHA-1 (Go `crypto/sha1`), executable over `Nat` -/

/-- 32-bit truncation. -/
def w32 (n : Nat) : Nat := n % 4294967296

/-- 32-bit left rotation. -/
def rotl (n x : Nat) : Nat :=
  w32 (x <<< n) ||| (w32 x >>> (32 - n))

/-- Big-endian bytes of a 32-bit word. -/
def be32 (n : Nat) : List Nat :=
  [n >>> 24 % 256, n >>> 16 % 256, n >>> 8 % 256, n % 256]

/-- Big-endian bytes of a 64-bit length field. -/
def be64 (n : Nat) : List Nat :=
  [n >>> 56 % 256, n >>> 48 % 256, n >>> 40 % 256, n >>> 32 % 256,
   n >>> 24 % 256, n >>> 16 % 256, n >>> 8 % 256, n % 256]

/-- Group bytes into big-endian 32-bit words. -/
def bytesToWords : List Nat → List Nat
  | b0 :: b1 :: b2 :: b3 :: rest =>
      (((b0 * 256 + b1) * 256 + b2) * 256 + b3) :: bytesToWords rest
  | _ => []

/-- SHA-1 message padding: a `0x80` byte, zeros to 56 mod 64, and the
64-bit big-endian bit length. -/
def sha1Pad (msg : List Nat) : List Nat :=
  msg ++ 0x80 :: List.replicate ((119 - msg.length % 64) % 64) 0
      ++ be64 (msg.length * 8)

/-- The SHA-1 working state: five 32-bit words. -/
structure Sha1State where
  h0 : Nat
  h1 : Nat
  h2 : Nat
  h3 : Nat
  h4 : Nat
  deriving DecidableEq, Repr

/-- SHA-1 initial state. -/
def sha1Init : Sha1State :=
  ⟨0x67452301, 0xEFCDAB89, 0x98BADCFE, 0x10325476, 0xC3D2E1F0⟩

/-- Extend sixteen schedule words to eighty.  `acc` holds the schedule so far
in reverse (newest first); `k` counts the words still to produce. -/
def sha1Extend (acc : List Nat) : Nat → List Nat
  | 0 => acc
  | k + 1 =>
      let w := rotl 1 ((acc.getD 2 0) ^^^ (acc.getD 7 0) ^^^
                       (acc.getD 13 0) ^^^ (acc.getD 15 0))
      sha1Extend (w :: acc) k

/-- The eighty-word message schedule of one block. -/
def sha1Schedule (block : List Nat) : List Nat :=
  (sha1Extend (bytesToWords block).reverse 64).reverse

/-- One SHA-1 round. -/
def sha1Round (st : Nat × Nat × Nat × Nat × Nat) (iw : Nat × Nat) :
    Nat × Nat × Nat × Nat × Nat :=
  let (a, b, c, d, e) := st
  let (i, w) := iw
  let f :=
    if i < 20 then (b &&& c) ||| ((b ^^^ 0xFFFFFFFF) &&& d)
    else if i < 40 then b ^^^ c ^^^ d
    else if i < 60 then (b &&& c) ||| (b &&& d) ||| (c &&& d)
    else b ^^^ c ^^^ d
  let k :=
    if i < 20 then 0x5A827999
    else if i < 40 then 0x6ED9EBA1
    else if i < 60 then 0x8F1BBCDC
    else 0xCA62C1D6
  let temp := w32 (rotl 5 a + f + e + k + w)
  (temp, a, rotl 30 b, c, d)

/-- Compress one 64-byte block into the running state. -/
def sha1Block (st : Sha1State) (block : List Nat) : Sha1State :=
  let (a, b, c, d, e) :=
    (sha1Schedule block).enum.foldl sha1Round (st.h0, st.h1, st.h2, st.h3, st.h4)
  ⟨w32 (st.h0 + a), w32 (st.h1 + b), w32 (st.h2 + c),
   w32 (st.h3 + d), w32 (st.h4 + e)⟩

/-- Process all 64-byte blocks; `fuel` bounds the recursion by the input length. -/
def sha1Blocks : Nat → List Nat → Sha1State → Sha1State
  | 0, _, st => st
  | _ + 1, [], st => st
  | fuel + 1, bytes, st =>
      sha1Blocks fuel (bytes.drop 64) (sha1Block st (bytes.take 64))

/-- SHA-1 digest (20 bytes) of a byte string. -/
def sha1 (msg : List Nat) : List Nat :=
  let padded := sha1Pad msg
  let st := sha1Blocks padded.length padded sha1Init
  be32 st.h0 ++ be32 st.h1 ++ be32 st.h2 ++ be32 st.h3 ++ be32 st.h4

/-! ## HMAC-SHA1 (Go `crypto/hmac` with `sha1.New`) -/

/-- HMAC-SHA1: keys longer than the 64-byte block are hashed first, then
zero-padded; inner pad `0x36`, outer pad `0x5c`. -/
def hmacSha1 (key msg : List Nat) : List Nat :=
  let key0 := if 64 < key.length then sha1 key else key
  let keyPadded := key0 ++ List.replicate (64 - key0.length) 0
  let ipad := keyPadded.map (· ^^^ 0x36)
  let opad := keyPadded.map (· ^^^ 0x5C)
  sha1 (opad ++ sha1 (ipad ++ msg))

/-! ## verifySignature (deployd's signature check) -/

/-- Embedding of Go `signatureValidationError`. -/
structure signatureValidationError where
  Expected : String
  Actual : String
  deriving DecidableEq, Repr

instance {ε α : Type} [DecidableEq ε] [DecidableEq α] : DecidableEq (Except ε α) := fun a b =>
  match a, b with
  | .error e, .error f =>
      if h : e = f then .isTrue (by rw [h]) else .isFalse (by simp [h])
  | .ok x, .ok y =>
      if h : x = y then .isTrue (by rw [h]) else .isFalse (by simp [h])
  | .error _, .ok _ => .isFalse (by simp)
  | .ok _, .error _ => .isFalse (by simp)

/-- Embedding of the Go `Error()` method of `signatureValidationError`. -/
def signatureValidationError.message (e : signatureValidationError) : String :=
  "Signature validation failed. Expected: " ++ e.Expected ++ ", actual: " ++ e.Actual

/-- The signature deployd computes for a payload:
`"sha1="` followed by the lowercase hex HMAC-SHA1 digest keyed by the secret. -/
def expectedSignatureFor (payload : List Nat) (secret : String) : String :=
  "sha1=" ++ hexLower (hmacSha1 (strBytes secret) payload)

/-- Embedding of Go `verifySignature(payload, signature, secret)`:
compute HMAC-SHA1 of the payload keyed by the secret, format as
`sha1=<hex>`, and compare with the supplied signature. -/
def verifySignature (payload : List Nat) (signature secret : String) :
    Except signatureValidationError Unit :=
  let checkSum := hmacSha1 (strBytes secret) payload
  let expectedSignature := "sha1=" ++ hexLower checkSum
  if expectedSignature ≠ signature then
    .error ⟨expectedSignature, signature⟩
  else
    .ok ()

/-! ## Status file persistence

`saveStatusToFile` writes `fmt.Sprintf("%s\n%s", status, output)`;
`loadStatusFromFile` reads the file and splits with
`strings.SplitN(data, "\n", 2)`, returning `elements[0]` and `elements[1]`.
File contents are modelled as `List Char`; the filesystem read/write is
abstracted away: the functions below map directly between the status pair
and the file content. -/

/-- Embedding of Go `strings.SplitN(s, sep, 2)` over a one-character
separator: split around the first instance of `sep`; the whole string as a
one-element list when `sep` is absent. -/
def splitN2 (sep : Char) : List Char → List (List Char)
  | [] => [[]]
  | c :: rest =>
      if c = sep then [[], rest]
      else
        match splitN2 sep rest with
        | [] => [[c]]
        | x :: ys => (c :: x) :: ys

/-- The file content `saveStatusToFile` writes: `status ++ "\n" ++ output`. -/
def saveStatusToFile (status output : List Char) : List Char :=
  status ++ '\n' :: output

/-- Embedding of `loadStatusFromFile` on the content of an existing file:
split at the first newline and index elements `0` and `1` of the result.
`none` models the Go runtime panic raised by the out-of-bounds index
`elements[1]` when the split produced fewer than two elements. -/
def loadStatusFromFile (content : List Char) : Option (List Char × List Char) :=
  let elements := splitN2 '\n' content
  match elements.get? 0, elements.get? 1 with
  | some a, some b => some (a, b)
  | _, _ => none

/-! ## The status locker actor (`startStatusLocker`)

The actor owns `lastStatus`/`lastOutput` and serves `SAVE_CMD`/`GET_CMD`
messages from its command channel.  A save overwrites the in-memory pair
and then attempts to persist; a persistence failure is only logged.  A get
replies with the current pair.  The channel is modelled as the list of
commands processed in order; the outcome of each save's file write is an
oracle `Bool` attached to the command. -/

/-- A command sent to the status locker, as in `lockerCommand`:
`SAVE_CMD` carries a status and output, `GET_CMD` requests the pair. -/
inductive LockerCmd where
  | save (status output : String)
  | get
  deriving DecidableEq, Repr

/-- Process one locker command from in-memory state `st`.
`persistOk` is the outcome `saveStatusToFile` would report; it affects only
the emitted log line, never the in-memory pair.  Returns the new state, the
reply sent on the response channel (for `GET_CMD`), and emitted log lines. -/
def lockerStep (st : String × String) (cmd : LockerCmd) (persistOk : Bool) :
    (String × String) × Option (String × String) × List String :=
  match cmd with
  | .save s o =>
      ((s, o), none, if persistOk then [] else ["Failed to write to status file"])
  | .get => (st, some st, [])

/-- Run the locker over a list of commands (each with its persistence
oracle), collecting the reply of each command in order. -/
def lockerRun (st : String × String) :
    List (LockerCmd × Bool) → (String × String) × List (Option (String × String))
  | [] => (st, [])
  | (cmd, pOk) :: rest =>
      let (st', reply, _) := lockerStep st cmd pOk
      let (stFin, replies) := lockerRun st' rest
      (stFin, reply :: replies)

/-- The locker's initial in-memory pair (`lastStatus`/`lastOutput`). -/
def lockerInit : String × String := ("not started", "not started")

/-! ## The worker (`startWorker`)

On each trigger the worker saves `("started", "")`, runs the external
command synchronously, and saves the terminal status with the combined
output.  The external process is abstracted as its observed result: the
combined output text and whether `CombinedOutput` returned an error. -/

/-- The command the worker constructs:
`exec.Cmd{Dir: projectFolder, Path: "/usr/bin/make", Args: []string{"deploy"}}`. -/
structure ExecCmd where
  Dir : String
  Path : String
  Args : List String
  deriving DecidableEq, Repr

/-- The worker's build command for a project folder. -/
def workerCmd (projectFolder : String) : ExecCmd :=
  ⟨projectFolder, "/usr/bin/make", ["deploy"]⟩

/-- Go `exec.Cmd` semantics: `Args` is the full argv of the new process and
`Args[0]` is conventionally the program name, so the arguments the program
receives after its name are `Args.drop 1`. -/
def argsAfterProgramName (c : ExecCmd) : List String :=
  c.Args.drop 1

/-- The locker commands one consumed trigger makes the worker emit, given
the external command's combined output and whether it errored. -/
def workerEmits (output : String) (cmdFailed : Bool) : List LockerCmd :=
  [.save "started" "",
   .save (if cmdFailed then "failed" else "ok") output]

/-! ## The HTTP handlers (`startHTTPD`) -/

/-- The GET branch of the handler: query the locker for the last status and
answer 500 on `"failed"`, 200 otherwise.  The argument is the status string
the locker's reply carries. -/
def handleGet (status : String) : Nat × String :=
  if status = "failed" then (500, "Last deployement failed")
  else (200, "Last deployment succeeded")

/-- Embedding of Go `githubPushEventData`. -/
structure githubPushEventData where
  Ref : String
  deriving DecidableEq, Repr

/-- Result of the POST branch: HTTP status code, response body (the message
handed to `http.Error`/`fmt.Fprint`), whether a trigger token was sent to
the work channel, and the locker commands sent. -/
structure PostResult where
  code : Nat
  body : String
  enqueued : Bool
  lockerCmds : List LockerCmd
  deriving DecidableEq, Repr

/-- The non-blocking send at the end of the POST branch:
`select { case workChan <- struct{}{}: ... default: ... }` on the
capacity-1 channel, `chanFull` telling whether the slot is occupied. -/
def trySend (chanFull : Bool) : PostResult :=
  if chanFull then ⟨409, "Deployement already in progress", false, []⟩
  else ⟨200, "Deployment started", true, []⟩

/-- The POST branch of the handler.  `decodeEvent` abstracts Go's
`json.Unmarshal` into `githubPushEventData` (`none` = decode error);
`sigHeader` is the `X-Hub-Signature` header value. -/
def handlePost (decodeEvent : List Nat → Option githubPushEventData)
    (secret branch : String) (payload : List Nat) (sigHeader : String)
    (chanFull : Bool) : PostResult :=
  match verifySignature payload sigHeader secret with
  | .error e => ⟨400, "Invalid signature: " ++ e.message, false, []⟩
  | .ok () =>
      if branch ≠ "" then
        match decodeEvent payload with
        | none => ⟨400, "Failed to decode body", false, []⟩
        | some eventData =>
            if eventData.Ref ≠ "refs/heads/" ++ branch then
              ⟨200, "Not-configured branch detected. No operation required.", false, []⟩
            else trySend chanFull
      else trySend chanFull

/-! ## Trigger admission over time

A small operational model of the interplay between the HTTP trigger path,
the capacity-1 work channel and the single worker goroutine.  `chanFull`
is whether a token sits unconsumed in `workChannel`; `running` is whether
the worker is blocked in `cmd.CombinedOutput()`.  The worker can only
receive from the channel between jobs, and the non-blocking send answers
200 exactly when the slot is free. -/

structure TriggerSys where
  chanFull : Bool
  running : Bool
  deriving DecidableEq, Repr

/-- Events of the trigger model: an authenticated, branch-accepted POST
reaching the final `select`; the worker receiving a token
(`case <-workChan:`); the external command finishing. -/
inductive WEv where
  | trigger
  | take
  | finish
  deriving DecidableEq, Repr

/-- One step of the trigger model; the optional `Nat` is the HTTP code a
trigger event is answered with. -/
def wstep (s : TriggerSys) : WEv → TriggerSys × Option Nat
  | .trigger =>
      if s.chanFull then (s, some 409)
      else ({ s with chanFull := true }, some 200)
  | .take =>
      if s.chanFull ∧ ¬s.running then (⟨false, true⟩, none)
      else (s, none)
  | .finish =>
      if s.running then ({ s with running := false }, none)
      else (s, none)

/-- Run the trigger model over an event list, collecting each event's
HTTP answer. -/
def wrun (s : TriggerSys) : List WEv → TriggerSys × List (Option Nat)
  | [] => (s, [])
  | ev :: rest =>
      let (s', resp) := wstep s ev
      let (sFin, resps) := wrun s' rest
      (sFin, resp :: resps)

/-- The state at daemon start: the channel is empty and no job runs. -/
def wInit : TriggerSys := ⟨false, false⟩

/-! ## Startup (`main`)

`main` loads the status file; a missing file is tolerated and leaves the
zero-value strings `("", "")` in `previousStatus`/`previousOutput`.  It
then unconditionally enqueues `Save(previousStatus, previousOutput)` before
starting the actors, so this save is the first command the locker
processes. -/

/-- The pair `main` enqueues at startup: the loaded record, or Go's
zero-value strings when the status file did not exist. -/
def startupPair (load : Option (String × String)) : String × String :=
  load.getD ("", "")

/-- The locker's in-memory pair once the startup save has been processed,
before any other command: `lockerInit` overwritten by the enqueued save. -/
def bootState (load : Option (String × String)) (persistOk : Bool) :
    String × String :=
  (lockerStep lockerInit (.save (startupPair load).1 (startupPair load).2) persistOk).1

/-! ## Helper lemmas -/

set_option maxRecDepth 1000000

/-- `verifySignature` characterized by comparison with the expected
signature string. -/
theorem verifySignature_eq (payload : List Nat) (s secret : String) :
    verifySignature payload s secret =
      if s = expectedSignatureFor payload secret then .ok ()
      else .error ⟨expectedSignatureFor payload secret, s⟩ := by
  show (if expectedSignatureFor payload secret ≠ s
        then (.error ⟨expectedSignatureFor payload secret, s⟩ :
          Except signatureValidationError Unit)
        else .ok ()) = _
  rcases eq_or_ne s (expectedSignatureFor payload secret) with h | h
  · rw [if_neg (fun hc => hc h.symm), if_pos h]
  · rw [if_pos (Ne.symm h), if_neg h]

/-- Splitting `s ++ "\n" ++ out` at the first newline recovers `s` and
`out` when `s` itself has no newline. -/
theorem splitN2_append (s out : List Char) (h : '\n' ∉ s) :
    splitN2 '\n' (s ++ '\n' :: out) = [s, out] := by
  induction s with
  | nil => simp [splitN2]
  | cons c cs ih =>
      have hc : c ≠ '\n' := fun hh => h (hh ▸ List.mem_cons_self c cs)
      have ihr := ih (fun hm => h (List.mem_cons_of_mem c hm))
      simp [splitN2, hc, ihr]

/-- A run of the locker consisting only of `GET_CMD` commands leaves the
state unchanged and answers every command with that state. -/
theorem lockerRun_all_get (q : String × String) (rest : List (LockerCmd × Bool))
    (h : ∀ x ∈ rest, x.1 = LockerCmd.get) :
    lockerRun q rest = (q, rest.map fun _ => some q) := by
  induction rest with
  | nil => rfl
  | cons hd tl ih =>
      obtain ⟨cmd, pOk⟩ := hd
      have hcmd : cmd = LockerCmd.get := h _ (List.mem_cons_self _ _)
      subst hcmd
      have ihr := ih (fun x hx => h x (List.mem_cons_of_mem _ hx))
      simp [lockerRun, lockerStep, ihr]

/-! ## Claim theorems -/

/-- C1: the claim "a trigger is never accepted with 200 while a job is
pending or running" fails on the code: after the worker receives the token
(`case <-workChan:`) the capacity-1 channel is free again while
`cmd.CombinedOutput()` is still running, so a second trigger submitted
before the first job completes is also answered 200.  Evaluating the model
on the trace trigger–take–trigger (no finish event, so the first job has
not completed) yields two 200 answers. -/
theorem wrun_second_trigger_accepted_while_running :
    wrun wInit [.trigger, .take, .trigger] =
      (⟨true, true⟩, [some 200, none, some 200]) := by decide

/-- C2: `verifySignature` succeeds exactly when the supplied signature is
`"sha1="` followed by the lowercase hex HMAC-SHA1 digest of the payload
keyed by the secret, and in every other case fails with an error carrying
the expected and the received signature strings. -/
theorem verifySignature_correct (payload : List Nat) (s secret : String) :
    (verifySignature payload s secret = .ok () ↔
      s = "sha1=" ++ hexLower (hmacSha1 (strBytes secret) payload))
    ∧ (s ≠ "sha1=" ++ hexLower (hmacSha1 (strBytes secret) payload) →
      verifySignature payload s secret =
        .error ⟨"sha1=" ++ hexLower (hmacSha1 (strBytes secret) payload), s⟩) := by
  have he : expectedSignatureFor payload secret =
      "sha1=" ++ hexLower (hmacSha1 (strBytes secret) payload) := rfl
  rw [← he, verifySignature_eq]
  rcases eq_or_ne s (expectedSignatureFor payload secret) with h | h <;> simp [h]

/-- C2 witness: the correct signature of the payload `"hi"` under secret
`"k"` is accepted, and a wrong signature for the empty payload is rejected
with the error carrying both strings. -/
theorem verifySignature_correct_witness :
    verifySignature (strBytes "hi") (expectedSignatureFor (strBytes "hi") "k") "k" =
      .ok ()
    ∧ verifySignature [] "bad" "k" =
      .error ⟨"sha1=" ++ hexLower (hmacSha1 (strBytes "k") []), "bad"⟩ :=
  ⟨(verifySignature_correct (strBytes "hi") (expectedSignatureFor (strBytes "hi") "k") "k").1.mpr
     rfl,
   (verifySignature_correct [] "bad" "k").2 (by decide)⟩

/-- C3: the worker emits `Save("started","")` before the external command
and exactly one terminal save afterwards, but the claim that the argument
list requests the `deploy` target fails on the code: `exec.Cmd.Args` is the
full argv of the process with `Args[0]` the program name, so
`Args: []string{"deploy"}` passes `make` no argument after the program
name slot — `make` runs its default target, not `deploy`. -/
theorem workerCmd_no_deploy_target :
    workerCmd "/p" = ⟨"/p", "/usr/bin/make", ["deploy"]⟩
    ∧ argsAfterProgramName (workerCmd "/p") = []
    ∧ workerEmits "out" false = [.save "started" "", .save "ok" "out"]
    ∧ workerEmits "out" true = [.save "started" "", .save "failed" "out"] := by
  decide

/-- C4: after the locker processes `Save(s, o)` — with any persistence
outcome, including failure — every `Get` processed before the next save
returns exactly `(s, o)`, and the in-memory state stays `(s, o)`. -/
theorem locker_save_then_gets (st : String × String) (s o : String) (pOk : Bool)
    (rest : List (LockerCmd × Bool)) (h : ∀ x ∈ rest, x.1 = LockerCmd.get) :
    (lockerStep st (.save s o) pOk).1 = (s, o)
    ∧ lockerRun (lockerStep st (.save s o) pOk).1 rest =
        ((s, o), rest.map fun _ => some (s, o)) :=
  ⟨rfl, lockerRun_all_get (s, o) rest h⟩

/-- C4 witness: `Save("failed", "boom")` whose file write failed, followed
by one `Get`, which still observes `("failed", "boom")`. -/
theorem locker_save_then_gets_witness :
    (lockerStep ("x", "y") (.save "failed" "boom") false).1 = ("failed", "boom")
    ∧ lockerRun (lockerStep ("x", "y") (.save "failed" "boom") false).1
        [(LockerCmd.get, true)] =
        (("failed", "boom"), [some ("failed", "boom")]) :=
  locker_save_then_gets ("x", "y") "failed" "boom" false [(LockerCmd.get, true)]
    (by decide)

/-- C5: saving a status (containing no newline) and an arbitrary output
(possibly containing newlines) and loading the resulting file content
returns exactly the original pair: line one is the status, everything after
the first newline is the output verbatim. -/
theorem saveStatus_loadStatus_roundtrip (status output : List Char)
    (h : '\n' ∉ status) :
    loadStatusFromFile (saveStatusToFile status output) = some (status, output) := by
  simp [loadStatusFromFile, saveStatusToFile, splitN2_append status output h,
    List.get?]

/-- C5 witness: round trip of the status `"ok"` with an output that itself
contains a newline. -/
theorem saveStatus_loadStatus_roundtrip_witness :
    '\n' ∉ "ok".toList
    ∧ loadStatusFromFile (saveStatusToFile "ok".toList "a\nb".toList) =
        some ("ok".toList, "a\nb".toList) :=
  ⟨by decide, saveStatus_loadStatus_roundtrip "ok".toList "a\nb".toList (by decide)⟩

/-- C6: the claim that `loadStatusFromFile` never performs an out-of-bounds
access fails on the code: on existing file content without a newline,
`strings.SplitN(data, "\n", 2)` yields a single element, and the
unconditional `elements[1]` is an out-of-bounds index (a runtime panic,
modelled as `none`), not a decode error that startup could turn into the
specified fatal exit. -/
theorem loadStatusFromFile_no_newline_oob :
    splitN2 '\n' "ok".toList = ["ok".toList]
    ∧ (splitN2 '\n' "ok".toList).get? 1 = none
    ∧ loadStatusFromFile "ok".toList = none := by decide

/-- C7 counterexample: in the Failed state the GET handler's body is the
code's literal `"Last deployement failed"` (sic), not the claim's
`"Last deployment failed"`. -/
theorem handleGet_failed_body_ne_claim :
    handleGet "failed" = (500, "Last deployement failed")
    ∧ (handleGet "failed").2 ≠ "Last deployment failed" := by decide

/-- C7 amended: a GET returns 500 with body `"Last deployement failed"`
(the code's spelling) exactly when the last deployment state is `"failed"`,
and otherwise — including the not-started and started states — returns 200
with body `"Last deployment succeeded"`. -/
theorem handleGet_spec (status : String) :
    (handleGet status = (500, "Last deployement failed") ↔ status = "failed")
    ∧ (status ≠ "failed" →
        handleGet status = (200, "Last deployment succeeded")) := by
  rcases eq_or_ne status "failed" with h | h <;> simp [handleGet, h]

/-- C7 witness: the in-progress state `"started"` maps to the success
branch. -/
theorem handleGet_spec_witness :
    handleGet "started" = (200, "Last deployment succeeded") :=
  (handleGet_spec "started").2 (by decide)

/-- C8: a POST whose signature does not verify is answered 400 with a body
naming both the expected and the received signature, no token is sent to
the work channel and no locker command is emitted, for every body, branch
filter and channel state. -/
theorem handlePost_invalid_signature
    (decodeEvent : List Nat → Option githubPushEventData)
    (secret branch : String) (payload : List Nat) (sigHeader : String)
    (chanFull : Bool) (h : sigHeader ≠ expectedSignatureFor payload secret) :
    handlePost decodeEvent secret branch payload sigHeader chanFull =
      ⟨400,
       "Invalid signature: Signature validation failed. Expected: " ++
         expectedSignatureFor payload secret ++ ", actual: " ++ sigHeader,
       false, []⟩ := by
  have hmsg : ∀ t : String,
      "Invalid signature: " ++ ("Signature validation failed. Expected: " ++ t) =
        "Invalid signature: Signature validation failed. Expected: " ++ t := by
    intro t
    rw [← String.append_assoc]
    exact congrArg (· ++ t) (by decide)
  simp [handlePost, verifySignature_eq, h, signatureValidationError.message,
    String.append_assoc, hmsg]

/-- C8 witness: a wrong signature for the empty payload under secret `"k"`
with a branch filter configured and a free slot. -/
theorem handlePost_invalid_signature_witness :
    handlePost (fun _ => none) "k" "main" [] "bad" false =
      ⟨400,
       "Invalid signature: Signature validation failed. Expected: " ++
         expectedSignatureFor [] "k" ++ ", actual: " ++ "bad",
       false, []⟩ :=
  handlePost_invalid_signature (fun _ => none) "k" "main" [] "bad" false (by decide)

/-- C9: with a non-empty branch filter and a valid signature, a body that
does not decode is answered 400, and a decoded body whose ref is not the
configured branch's fully-qualified ref is answered 200 with the no-op
message; in both cases nothing is enqueued and no locker command is
emitted. -/
theorem handlePost_branch_filter
    (decodeEvent : List Nat → Option githubPushEventData)
    (secret branch : String) (payload : List Nat) (chanFull : Bool)
    (hb : branch ≠ "") :
    (decodeEvent payload = none →
      handlePost decodeEvent secret branch payload
          (expectedSignatureFor payload secret) chanFull =
        ⟨400, "Failed to decode body", false, []⟩)
    ∧ (∀ ev, decodeEvent payload = some ev →
        ev.Ref ≠ "refs/heads/" ++ branch →
        handlePost decodeEvent secret branch payload
            (expectedSignatureFor payload secret) chanFull =
          ⟨200, "Not-configured branch detected. No operation required.",
           false, []⟩) := by
  constructor
  · intro hdec
    simp [handlePost, verifySignature_eq, hb, hdec]
  · intro ev hdec href
    simp [handlePost, verifySignature_eq, hb, hdec, href]

/-- C9 witness: with filter `main` and a valid signature, an undecodable
body yields 400 and a push to `refs/heads/feature` yields the 200 no-op;
neither enqueues. -/
theorem handlePost_branch_filter_witness :
    handlePost (fun _ => none) "k" "main" []
        (expectedSignatureFor [] "k") false =
      ⟨400, "Failed to decode body", false, []⟩
    ∧ handlePost (fun _ => some ⟨"refs/heads/feature"⟩) "k" "main" []
        (expectedSignatureFor [] "k") false =
      ⟨200, "Not-configured branch detected. No operation required.",
       false, []⟩ :=
  ⟨(handlePost_branch_filter (fun _ => none) "k" "main" [] false (by decide)).1 rfl,
   (handlePost_branch_filter (fun _ => some ⟨"refs/heads/feature"⟩) "k" "main" []
      false (by decide)).2 ⟨"refs/heads/feature"⟩ rfl (by decide)⟩

/-- C10 counterexample: with no prior persisted record, the state the
locker holds once startup's enqueued save is processed is `("", "")` — the
Go zero-value strings `main` sends unconditionally — not the
`("not started", "not started")` sentinel the claim describes. -/
theorem bootState_overwrites_sentinel :
    bootState none true = ("", "")
    ∧ bootState none true ≠ lockerInit := by decide

/-- C10 amended: with no prior persisted record the observable status after
startup is the empty-string pair `("", "")` (the sentinel having been
overwritten by the startup save), and a GET before any trigger still
returns the success branch, because `""` is not `"failed"`. -/
theorem bootState_no_file (pOk : Bool) :
    bootState none pOk = ("", "")
    ∧ handleGet (bootState none pOk).1 = (200, "Last deployment succeeded") :=
  ⟨rfl, rfl⟩

end Deployd
